import Mathlib

/-!
Verification of the tk_clientes_pedidos repository.

This file shallowly embeds the data-access layer (`src/db.py`), the model layer
(`src/models.py`), the export helpers (`src/export_utils.py`) and the action
logger (`src/app_logger.py`) of the application, and proves or refutes the
frozen specification claims about them.

Conventions of the embedding:
* The SQLite database file is a pure value `DB` (three tables plus the
  AUTOINCREMENT sequences).
* A SQL statement together with its bound parameters is a constructor of
  `Stmt`; `execStmt` gives each statement the SQLite semantics relevant to this
  schema (foreign keys enforced, as every connection of the program executes
  `PRAGMA foreign_keys = ON` first).
* `sqlite3` connections are `Conn` values carrying the committed (on-disk)
  state, the state seen inside the connection, and an open flag.
* Python exceptions are `Except` errors.  A Python call that passes a keyword
  argument the callee does not accept raises `TypeError` at the call site,
  before the callee body runs; `pyCallExecuteQuery` models this binding step
  for the call sites of `src/models.py`.
* Monetary values are rationals; Python float formatting `f"{x:.2f}"` is
  modelled by rounding to integer cents (`roundCents`, `fmt2`).  None of the
  concrete inputs used below sits on a rounding tie, so the difference between
  float round-half-even and rational rounding does not matter.
-/

namespace ClientesPedidos

/-! ## Database rows (schema of `db.init_db`) -/

/-- One row of the `clientes` table:
`id INTEGER PRIMARY KEY AUTOINCREMENT, nome TEXT NOT NULL, email TEXT UNIQUE, telefone TEXT`. -/
structure Cliente where
  id : Nat
  nome : String
  email : Option String
  telefone : Option String
deriving DecidableEq, Repr

/-- One row of the `pedidos` table:
`id INTEGER PRIMARY KEY AUTOINCREMENT, cliente_id INTEGER NOT NULL, data TEXT NOT NULL,
total REAL NOT NULL, FOREIGN KEY (cliente_id) REFERENCES clientes (id)`. -/
structure Pedido where
  id : Nat
  cliente_id : Nat
  data : String
  total : ℚ
deriving DecidableEq, Repr

/-- One row of the `itens_pedido` table:
`id INTEGER PRIMARY KEY AUTOINCREMENT, pedido_id INTEGER NOT NULL, produto TEXT NOT NULL,
quantidade INTEGER NOT NULL, preco_unit REAL NOT NULL,
FOREIGN KEY (pedido_id) REFERENCES pedidos (id) ON DELETE CASCADE`. -/
structure ItemPedido where
  id : Nat
  pedido_id : Nat
  produto : String
  quantidade : Int
  preco_unit : ℚ
deriving DecidableEq, Repr

/-- The whole database file: the three tables plus the AUTOINCREMENT sequences
(SQLite hands out row ids starting from 1). -/
structure DB where
  clientes : List Cliente
  pedidos : List Pedido
  itens : List ItemPedido
  seqCliente : Nat := 1
  seqPedido : Nat := 1
  seqItem : Nat := 1
deriving DecidableEq, Repr

/-! ## SQLite values, string helpers -/

/-- A cell of a result row, as the `sqlite3` module hands tuples back. -/
inductive Cell
  | null
  | int (n : Int)
  | real (q : ℚ)
  | text (s : String)
deriving DecidableEq, Repr

/-- A result row is a tuple of cells. -/
abbrev Row := List Cell

/-- TEXT column that may be NULL. -/
def optText : Option String → Cell
  | none => Cell.null
  | some s => Cell.text s

/-- Naive substring test on character lists. -/
def subOf (needle hay : List Char) : Bool :=
  needle.isPrefixOf hay ||
    match hay with
    | [] => false
    | _ :: t => subOf needle t

/-- SQLite `column LIKE ?` with the parameter sandwiched in percent signs:
case-insensitive (for ASCII, which is what `Char.toLower` folds) substring
containment. -/
def likeContains (s term : String) : Bool :=
  subOf (term.data.map Char.toLower) (s.data.map Char.toLower)

/-- `column LIKE ?` on a nullable TEXT column: `NULL LIKE x` is NULL, hence
does not satisfy the WHERE clause. -/
def likeOpt (o : Option String) (term : String) : Bool :=
  match o with
  | none => false
  | some s => likeContains s term

/-- Python `pat in s` substring containment on strings. -/
def containsStr (s pat : String) : Bool :=
  subOf pat.data s.data

/-! ## Statements and their SQLite semantics -/

/-- The SQL statements issued by the program, with their bound parameters.
Each constructor corresponds to one literal query string of `src/models.py`. -/
inductive Stmt
  /-- `SELECT id, nome, email, telefone FROM clientes` with the optional
  `WHERE nome LIKE ? OR email LIKE ?` filter of `find_clients`. -/
  | selectClientes (term : Option String)
  /-- `SELECT id, nome, email, telefone FROM clientes WHERE id = ?` -/
  | selectClienteById (id : Nat)
  /-- `INSERT INTO clientes (nome, email, telefone) VALUES (?, ?, ?)` -/
  | insertCliente (nome : String) (email telefone : Option String)
  /-- `UPDATE clientes SET nome = ?, email = ?, telefone = ? WHERE id = ?` -/
  | updateCliente (id : Nat) (nome : String) (email telefone : Option String)
  /-- `SELECT 1 FROM pedidos WHERE cliente_id = ?` -/
  | selectPedidoExists (clienteId : Nat)
  /-- `DELETE FROM clientes WHERE id = ?` -/
  | deleteCliente (id : Nat)
  /-- `SELECT id, nome FROM clientes` -/
  | selectClientesIdNome
  /-- `SELECT p.id, c.nome, p.data, p.total FROM pedidos p JOIN clientes c ON
  p.cliente_id = c.id` with the optional `WHERE c.nome LIKE ? OR p.id LIKE ?`
  filter of `find_pedidos`. -/
  | selectPedidosJoin (term : Option String)
  /-- `SELECT id, cliente_id, data, total FROM pedidos WHERE id = ?` -/
  | selectPedidoById (id : Nat)
  /-- `SELECT produto, quantidade, preco_unit FROM itens_pedido WHERE pedido_id = ?` -/
  | selectItensByPedido (pedidoId : Nat)
  /-- `INSERT INTO pedidos (cliente_id, data, total) VALUES (?, ?, ?)` -/
  | insertPedido (clienteId : Nat) (data : String) (total : ℚ)
  /-- `INSERT INTO itens_pedido (pedido_id, produto, quantidade, preco_unit) VALUES (?, ?, ?, ?)` -/
  | insertItem (pedidoId : Nat) (produto : String) (quantidade : Int) (precoUnit : ℚ)
  /-- `UPDATE pedidos SET cliente_id = ?, data = ?, total = ? WHERE id = ?` -/
  | updatePedido (id clienteId : Nat) (data : String) (total : ℚ)
  /-- `DELETE FROM itens_pedido WHERE pedido_id = ?` -/
  | deleteItens (pedidoId : Nat)
  /-- `DELETE FROM pedidos WHERE id = ?` -/
  | deletePedido (id : Nat)
  /-- the literal statement `COMMIT` -/
  | commitTx
  /-- the literal statement `ROLLBACK` -/
  | rollbackTx
deriving DecidableEq, Repr

/-- Errors the storage layer can raise (`sqlite3.Error`), with the message
text the program matches on. -/
inductive SqlError
  | uniqueEmail
  | foreignKey
  | noActiveTransaction
deriving DecidableEq, Repr

/-- `str(e)` for a storage-layer error. -/
def SqlError.msg : SqlError → String
  | .uniqueEmail => "UNIQUE constraint failed: clientes.email"
  | .foreignKey => "FOREIGN KEY constraint failed"
  | .noActiveTransaction => "cannot commit - no transaction is active"

/-- Outcome of a successfully executed statement: the updated database state,
the rows the cursor can fetch, and `cursor.lastrowid`. -/
structure ExecOut where
  db : DB
  rows : List Row := []
  lastId : Option Nat := none
deriving DecidableEq, Repr

/-- Row tuple for `SELECT id, nome, email, telefone FROM clientes`. -/
def clienteRow (c : Cliente) : Row :=
  [Cell.int c.id, Cell.text c.nome, optText c.email, optText c.telefone]

/-- SQLite semantics of each statement of the program, acting on the state a
connection currently sees.  Foreign-key checks are always on, because
`execute_query` runs `PRAGMA foreign_keys = ON;` on every connection before
the statement. -/
def execStmt : Stmt → DB → Except SqlError ExecOut
  | .selectClientes term, db =>
      let cs := db.clientes.filter fun c =>
        match term with
        | none => true
        | some t => likeContains c.nome t || likeOpt c.email t
      .ok { db := db, rows := cs.map clienteRow }
  | .selectClienteById i, db =>
      .ok { db := db, rows := (db.clientes.filter (fun c => c.id == i)).map clienteRow }
  | .insertCliente nome email telefone, db =>
      match email with
      | some e =>
          if db.clientes.any (fun c => c.email == some e) then
            .error .uniqueEmail
          else
            .ok { db := { db with
                    clientes := db.clientes ++
                      [{ id := db.seqCliente, nome := nome, email := email,
                         telefone := telefone }],
                    seqCliente := db.seqCliente + 1 },
                  lastId := some db.seqCliente }
      | none =>
          .ok { db := { db with
                  clientes := db.clientes ++
                    [{ id := db.seqCliente, nome := nome, email := none,
                       telefone := telefone }],
                  seqCliente := db.seqCliente + 1 },
                lastId := some db.seqCliente }
  | .updateCliente i nome email telefone, db =>
      let hits := db.clientes.any (fun c => c.id == i)
      let clash := match email with
        | some e => db.clientes.any (fun c => c.id != i && c.email == some e)
        | none => false
      if hits && clash then
        .error .uniqueEmail
      else
        .ok { db := { db with
                clientes := db.clientes.map fun c =>
                  if c.id == i then
                    { c with nome := nome, email := email, telefone := telefone }
                  else c } }
  | .selectPedidoExists cid, db =>
      .ok { db := db,
            rows := (db.pedidos.filter (fun p => p.cliente_id == cid)).map
              (fun _ => [Cell.int 1]) }
  | .deleteCliente i, db =>
      if db.pedidos.any (fun p => p.cliente_id == i) then
        .error .foreignKey
      else
        .ok { db := { db with clientes := db.clientes.filter (fun c => c.id != i) } }
  | .selectClientesIdNome, db =>
      .ok { db := db, rows := db.clientes.map (fun c => [Cell.int c.id, Cell.text c.nome]) }
  | .selectPedidosJoin term, db =>
      let joined := db.pedidos.flatMap fun p =>
        (db.clientes.filter (fun c => c.id == p.cliente_id)).map (fun c => (p, c))
      let hits := joined.filter fun pc =>
        match term with
        | none => true
        | some t => likeContains pc.2.nome t || likeContains (toString pc.1.id) t
      .ok { db := db,
            rows := hits.map fun pc =>
              [Cell.int pc.1.id, Cell.text pc.2.nome, Cell.text pc.1.data,
               Cell.real pc.1.total] }
  | .selectPedidoById i, db =>
      .ok { db := db,
            rows := (db.pedidos.filter (fun p => p.id == i)).map fun p =>
              [Cell.int p.id, Cell.int p.cliente_id, Cell.text p.data, Cell.real p.total] }
  | .selectItensByPedido pid, db =>
      .ok { db := db,
            rows := (db.itens.filter (fun it => it.pedido_id == pid)).map fun it =>
              [Cell.text it.produto, Cell.int it.quantidade, Cell.real it.preco_unit] }
  | .insertPedido cid data total, db =>
      if db.clientes.any (fun c => c.id == cid) then
        .ok { db := { db with
                pedidos := db.pedidos ++
                  [{ id := db.seqPedido, cliente_id := cid, data := data, total := total }],
                seqPedido := db.seqPedido + 1 },
              lastId := some db.seqPedido }
      else
        .error .foreignKey
  | .insertItem pid produto quantidade precoUnit, db =>
      if db.pedidos.any (fun p => p.id == pid) then
        .ok { db := { db with
                itens := db.itens ++
                  [{ id := db.seqItem, pedido_id := pid, produto := produto,
                     quantidade := quantidade, preco_unit := precoUnit }],
                seqItem := db.seqItem + 1 },
              lastId := some db.seqItem }
      else
        .error .foreignKey
  | .updatePedido i cid data total, db =>
      if db.pedidos.any (fun p => p.id == i) && !(db.clientes.any (fun c => c.id == cid)) then
        .error .foreignKey
      else
        .ok { db := { db with
                pedidos := db.pedidos.map fun p =>
                  if p.id == i then { p with cliente_id := cid, data := data, total := total }
                  else p } }
  | .deleteItens pid, db =>
      .ok { db := { db with itens := db.itens.filter (fun it => it.pedido_id != pid) } }
  | .deletePedido i, db =>
      -- ON DELETE CASCADE removes the line items of the order.
      .ok { db := { db with
              pedidos := db.pedidos.filter (fun p => p.id != i),
              itens := db.itens.filter (fun it => it.pedido_id != i) } }
  | .commitTx, db =>
      -- In this program COMMIT and ROLLBACK are only ever issued through
      -- `execute_query` without a connection handle, i.e. on a connection that
      -- was just opened and has no transaction in progress.
      let _ := db
      .error .noActiveTransaction
  | .rollbackTx, db =>
      let _ := db
      .error .noActiveTransaction

/-! ## The persistence gateway `db.execute_query` -/

/-- The `fetch` parameter of `execute_query`. -/
inductive Fetch
  | noFetch
  | all
  | one
  | lastrowid
deriving DecidableEq, Repr

/-- The value `execute_query` returns (a Python object). -/
inductive Value
  | none
  | rows (rs : List Row)
  | row (r : Option Row)
  | rowid (n : Option Nat)
deriving DecidableEq, Repr

/-- Python truthiness of the values `execute_query` can return. -/
def Value.truthy : Value → Bool
  | .none => false
  | .rows rs => !rs.isEmpty
  | .row r => r.isSome
  | .rowid n => match n with
    | Option.none => false
    | Option.some k => k != 0

/-- Dispatch on the `fetch` parameter (`fetchall`, `fetchone`, `lastrowid`). -/
def fetchResult : Fetch → ExecOut → Value
  | .noFetch, _ => .none
  | .all, o => .rows o.rows
  | .one, o => .row o.rows.head?
  | .lastrowid, o => .rowid o.lastId

/-- A `sqlite3` connection: the committed (on-disk) state, the state this
connection currently sees, and whether it is still open. -/
structure Conn where
  committed : DB
  current : DB
  isOpen : Bool := true
deriving DecidableEq, Repr

/-- Shallow embedding of `db.execute_query(query, params, conn, fetch)`.

`db` is the on-disk database.  If `conn` is `none` the gateway opens its own
connection on `db`, executes, commits on success or rolls back on failure, and
closes the connection in all cases; the updated disk state is returned.  If a
connection handle is supplied the gateway executes against it and neither
commits nor closes it; the caller owns the transaction.  The returned `Conn`
is the handle after the call (for an internal call, the connection the gateway
created, now closed).  On failure the error is returned unchanged. -/
def execute_query (query : Stmt) (fetch : Fetch) (conn : Option Conn) (db : DB) :
    Except SqlError Value × DB × Conn :=
  let is_external := conn.isSome
  let c0 := match conn with
    | some c => c
    | none => { committed := db, current := db }
  -- cursor.execute("PRAGMA foreign_keys = ON;"): foreign keys are enforced by
  -- `execStmt` on every statement.
  match execStmt query c0.current with
  | .ok out =>
      let result := fetchResult fetch out
      if is_external then
        (.ok result, db, { c0 with current := out.db })
      else
        (.ok result, out.db, { committed := out.db, current := out.db, isOpen := false })
  | .error e =>
      if is_external then
        (.error e, db, c0)
      else
        (.error e, db, { c0 with current := c0.committed, isOpen := false })

/-! ## Python call binding for `execute_query`

The functions of `src/models.py` invoke `db.execute_query` with the keyword
arguments `fetch_all`, `fetch_one`, `commit` and `fetch_last_row_id`, but the
signature of `execute_query` is `(query, params=(), conn=None, fetch=None)`.
Python raises `TypeError` for an unexpected keyword argument at the call site,
before the callee body runs, so such a call executes no SQL and opens no
connection. -/

/-- The parameter names of `db.execute_query`. -/
def execute_query_params : List String := ["query", "params", "conn", "fetch"]

/-- A Python exception as seen by the model layer. -/
inductive PyErr
  | typeError (msg : String)
  | sqlError (e : SqlError)
  /-- a plain `Exception(...)` raised by `models.py` itself -/
  | appError (msg : String)
deriving DecidableEq, Repr

/-- `str(e)` for a Python exception (the model layer matches on this text). -/
def PyErr.msg : PyErr → String
  | .typeError m => m
  | .sqlError e => e.msg
  | .appError m => m

/-- Message of the `TypeError` Python raises for an unexpected keyword
argument (Python quotes the offending name; the quotes are elided here). -/
def unexpectedKwMsg (name : String) : String :=
  "execute_query() got an unexpected keyword argument " ++ name

/-- One call to `db.execute_query` as written in `src/models.py`: the query
and its parameters are passed positionally (folded into the `Stmt` value) and
`kwargs` lists the keyword-argument names of the call site, in source order.

Python first binds the arguments: if any keyword name is not a parameter of
`execute_query`, a `TypeError` is raised and the body never runs.  Otherwise
the body runs; since every call site of `models.py` passes only `query` and
`params` positionally, a call that survives binding runs with the defaults
`conn=None` and `fetch=None`. -/
def pyCallExecuteQuery (kwargs : List String) (query : Stmt) (db : DB) :
    Except PyErr Value × DB :=
  match kwargs.find? (fun n => !(execute_query_params.contains n)) with
  | some bad => (.error (.typeError (unexpectedKwMsg bad)), db)
  | none =>
      match execute_query query Fetch.noFetch none db with
      | (.ok v, db1, _) => (.ok v, db1)
      | (.error e, db1, _) => (.error (.sqlError e), db1)

/-! ## The model layer `src/models.py`

Each method is a function from the on-disk database (plus its arguments) to a
Python-level result and the database afterwards.  The dictionaries the methods
build are represented positionally by the rows they are built from. -/

/-- Result dictionary `{"success": ..., "message": ...}` returned by
`add_client`, `update_client` and `delete_client`. -/
structure OpResult where
  success : Bool
  message : Option String := none
deriving DecidableEq, Repr

/-- A line-item dictionary `{'produto': ..., 'quantidade': ..., 'preco_unit': ...}`
as the order form hands it to the transactional methods. -/
structure ItemDict where
  produto : String
  quantidade : Int
  preco_unit : ℚ
deriving DecidableEq, Repr

/-- `ClienteModel.find_clients(search_term="")`. -/
def find_clients (db : DB) (search_term : String) : Except PyErr Value × DB :=
  let query : Stmt :=
    if search_term = "" then .selectClientes none
    else .selectClientes (some search_term)
  -- return execute_query(query, params, fetch_all=True)
  pyCallExecuteQuery ["fetch_all"] query db

/-- `ClienteModel.get_client_by_id(cliente_id)`: builds the dictionary
`{'id':, 'nome':, 'email':, 'telefone':}` from the fetched tuple, or returns
`None`. -/
def get_client_by_id (db : DB) (cliente_id : Nat) : Except PyErr (Option Row) × DB :=
  -- result = execute_query(query, (cliente_id,), fetch_one=True)
  match pyCallExecuteQuery ["fetch_one"] (.selectClienteById cliente_id) db with
  | (.error e, db1) => (.error e, db1)
  | (.ok v, db1) =>
      if v.truthy then
        match v with
        | .row (some r) => (.ok (some r), db1)
        | _ => (.ok none, db1)
      else (.ok none, db1)

/-- `ClienteModel.add_client(nome, email, telefone)`. -/
def add_client (db : DB) (nome : String) (email telefone : Option String) :
    Except PyErr OpResult × DB :=
  -- execute_query(query, (nome, email, telefone), commit=True)
  match pyCallExecuteQuery ["commit"] (.insertCliente nome email telefone) db with
  | (.error e, db1) => (.error e, db1)
  | (.ok _, db1) => (.ok { success := true }, db1)

/-- `ClienteModel.update_client(cliente_id, nome, email, telefone)`. -/
def update_client (db : DB) (cliente_id : Nat) (nome : String)
    (email telefone : Option String) : Except PyErr OpResult × DB :=
  -- execute_query(query, (nome, email, telefone, cliente_id), commit=True)
  match pyCallExecuteQuery ["commit"] (.updateCliente cliente_id nome email telefone) db with
  | (.error e, db1) => (.error e, db1)
  | (.ok _, db1) => (.ok { success := true }, db1)

/-- Message `delete_client` returns when the pre-check finds orders. -/
def deleteClientPrecheckMsg (cliente_id : Nat) : String :=
  "Não é possível excluir o cliente ID " ++ toString cliente_id ++
    ", pois ele possui pedidos cadastrados."

/-- Message `delete_client` returns when a caught error mentions the
foreign-key constraint. -/
def deleteClientFkMsg (cliente_id : Nat) : String :=
  "Não é possível excluir o cliente ID " ++ toString cliente_id ++
    " (Constraint Error), pois ele possui pedidos."

/-- The `except` clause of `delete_client`: a foreign-key message in `str(e)`
is converted into a failure dictionary, anything else is re-raised. -/
def deleteClientCatch (cliente_id : Nat) (e : PyErr) (db : DB) :
    Except PyErr OpResult × DB :=
  if containsStr e.msg "FOREIGN KEY constraint failed" then
    (.ok { success := false, message := some (deleteClientFkMsg cliente_id) }, db)
  else
    (.error e, db)

/-- `ClienteModel.delete_client(cliente_id)`: pre-checks for owned orders,
then deletes; storage errors mentioning the foreign-key constraint are turned
into a failure dictionary. -/
def delete_client (db : DB) (cliente_id : Nat) : Except PyErr OpResult × DB :=
  -- has_pedidos = execute_query(check_query, (cliente_id,), fetch_one=True)
  match pyCallExecuteQuery ["fetch_one"] (.selectPedidoExists cliente_id) db with
  | (.error e, db1) => deleteClientCatch cliente_id e db1
  | (.ok has_pedidos, db1) =>
      if has_pedidos.truthy then
        (.ok { success := false, message := some (deleteClientPrecheckMsg cliente_id) }, db1)
      else
        -- execute_query(query, (cliente_id,), commit=True)
        match pyCallExecuteQuery ["commit"] (.deleteCliente cliente_id) db1 with
        | (.error e, db2) => deleteClientCatch cliente_id e db2
        | (.ok _, db2) => (.ok { success := true }, db2)

/-- `ClienteModel.get_all_clients_list()`. -/
def get_all_clients_list (db : DB) : Except PyErr Value × DB :=
  -- return execute_query(query, fetch_all=True)
  pyCallExecuteQuery ["fetch_all"] .selectClientesIdNome db

/-- `PedidoModel.find_pedidos(search_term="")`. -/
def find_pedidos (db : DB) (search_term : String) : Except PyErr Value × DB :=
  let query : Stmt :=
    if search_term = "" then .selectPedidosJoin none
    else .selectPedidosJoin (some search_term)
  -- return execute_query(query, params, fetch_all=True)
  pyCallExecuteQuery ["fetch_all"] query db

/-- `PedidoModel.get_pedido_details(pedido_id)`: the order header tuple plus
the list of item tuples, or `None` when the order does not exist. -/
def get_pedido_details (db : DB) (pedido_id : Nat) :
    Except PyErr (Option (Row × List Row)) × DB :=
  -- pedido_info_tuple = execute_query(query_pedido, (pedido_id,), fetch_one=True)
  match pyCallExecuteQuery ["fetch_one"] (.selectPedidoById pedido_id) db with
  | (.error e, db1) => (.error e, db1)
  | (.ok info, db1) =>
      if !info.truthy then (.ok none, db1)
      else
        match info with
        | .row (some r) =>
            -- itens_tuple_list = execute_query(query_itens, (pedido_id,), fetch_all=True)
            match pyCallExecuteQuery ["fetch_all"] (.selectItensByPedido pedido_id) db1 with
            | (.error e, db2) => (.error e, db2)
            | (.ok (.rows itens), db2) => (.ok (some (r, itens)), db2)
            | (.ok _, db2) =>
                -- iterating a non-list fetch result would raise in Python
                (.error (.typeError "object is not iterable"), db2)
        | _ => (.error (.typeError "object is not subscriptable"), db1)

/-- The item-insertion loop shared by `salvar_pedido_transacional` and
`editar_pedido_transacional` (both issue the same INSERT with `commit=False`). -/
def insertItensLoop (pedido_id : Nat) (itens : List ItemDict) (db : DB) :
    Except PyErr Unit × DB :=
  match itens with
  | [] => (.ok (), db)
  | item :: rest =>
      match pyCallExecuteQuery ["commit"]
          (.insertItem pedido_id item.produto item.quantidade item.preco_unit) db with
      | (.error e, db1) => (.error e, db1)
      | (.ok _, db1) => insertItensLoop pedido_id rest db1

/-- The `except` clause of the three transactional methods: attempt a
`ROLLBACK` through `execute_query`, swallow any failure of that attempt, and
re-raise the original error. -/
def transacionalCatch (e : PyErr) (db : DB) : Except PyErr Unit × DB :=
  match pyCallExecuteQuery ["commit"] .rollbackTx db with
  | (_, db1) => (.error e, db1)

/-- `PedidoModel.salvar_pedido_transacional(cliente_id, data_pedido, itens, total)`. -/
def salvar_pedido_transacional (db : DB) (cliente_id : Nat) (data_pedido : String)
    (itens : List ItemDict) (total : ℚ) : Except PyErr Unit × DB :=
  let body : Except PyErr Unit × DB :=
    -- pedido_id = execute_query(query_pedido, (...), commit=False, fetch_last_row_id=True)
    match pyCallExecuteQuery ["commit", "fetch_last_row_id"]
        (.insertPedido cliente_id data_pedido total) db with
    | (.error e, db1) => (.error e, db1)
    | (.ok v, db1) =>
        if !v.truthy then
          -- raise Exception("Não foi possível obter o ID do novo pedido.")
          (.error (.appError "Não foi possível obter o ID do novo pedido."), db1)
        else
          let pedido_id : Nat := match v with
            | .rowid (some n) => n
            | _ => 0
          match insertItensLoop pedido_id itens db1 with
          | (.error e, db2) => (.error e, db2)
          | (.ok _, db2) =>
              -- execute_query("COMMIT", commit=False)
              match pyCallExecuteQuery ["commit"] .commitTx db2 with
              | (.error e, db3) => (.error e, db3)
              | (.ok _, db3) => (.ok (), db3)
  match body with
  | (.ok _, db1) => (.ok (), db1)
  | (.error e, db1) => transacionalCatch e db1

/-- `PedidoModel.editar_pedido_transacional(pedido_id, cliente_id, data_pedido, itens, total)`. -/
def editar_pedido_transacional (db : DB) (pedido_id cliente_id : Nat)
    (data_pedido : String) (itens : List ItemDict) (total : ℚ) :
    Except PyErr Unit × DB :=
  let body : Except PyErr Unit × DB :=
    -- execute_query(query_pedido_update, (...), commit=False)
    match pyCallExecuteQuery ["commit"]
        (.updatePedido pedido_id cliente_id data_pedido total) db with
    | (.error e, db1) => (.error e, db1)
    | (.ok _, db1) =>
        -- execute_query(query_delete_itens, (pedido_id,), commit=False)
        match pyCallExecuteQuery ["commit"] (.deleteItens pedido_id) db1 with
        | (.error e, db2) => (.error e, db2)
        | (.ok _, db2) =>
            match insertItensLoop pedido_id itens db2 with
            | (.error e, db3) => (.error e, db3)
            | (.ok _, db3) =>
                match pyCallExecuteQuery ["commit"] .commitTx db3 with
                | (.error e, db4) => (.error e, db4)
                | (.ok _, db4) => (.ok (), db4)
  match body with
  | (.ok _, db1) => (.ok (), db1)
  | (.error e, db1) => transacionalCatch e db1

/-- `PedidoModel.delete_pedido_transacional(pedido_id)`. -/
def delete_pedido_transacional (db : DB) (pedido_id : Nat) : Except PyErr Unit × DB :=
  let body : Except PyErr Unit × DB :=
    -- execute_query(query_delete_itens, (pedido_id,), commit=False)
    match pyCallExecuteQuery ["commit"] (.deleteItens pedido_id) db with
    | (.error e, db1) => (.error e, db1)
    | (.ok _, db1) =>
        -- execute_query(query_delete_pedido, (pedido_id,), commit=False)
        match pyCallExecuteQuery ["commit"] (.deletePedido pedido_id) db1 with
        | (.error e, db2) => (.error e, db2)
        | (.ok _, db2) =>
            match pyCallExecuteQuery ["commit"] .commitTx db2 with
            | (.error e, db3) => (.error e, db3)
            | (.ok _, db3) => (.ok (), db3)
  match body with
  | (.ok _, db1) => (.ok (), db1)
  | (.error e, db1) => transacionalCatch e db1

/-! ## Concrete databases used as inputs below -/

/-- Two customers, no orders. -/
def dbClientesDemo : DB :=
  { clientes := [{ id := 1, nome := "Ana", email := some "ana@x.com", telefone := some "111" },
                 { id := 2, nome := "Bruno", email := some "bruno@x.com", telefone := none }],
    pedidos := [], itens := [], seqCliente := 3 }

/-- One customer that owns zero orders. -/
def dbDeleteDemo : DB :=
  { clientes := [{ id := 1, nome := "Ana", email := some "ana@x.com", telefone := none }],
    pedidos := [], itens := [], seqCliente := 2 }

/-! ## Claims about the model layer and the gateway -/

/-- C2: every database-touching method of `ClienteModel` and `PedidoModel`
invokes `db.execute_query` with a keyword argument (`fetch_all`, `fetch_one`,
`commit`, `fetch_last_row_id`) that its signature `(query, params, conn,
fetch)` does not accept, so each call raises `TypeError` at the call site,
before any SQL executes, and the database afterwards is exactly the database
before: no such call ever modifies or reads the database. -/
theorem models_methods_typeError_before_sql :
    ∀ (db : DB) (term nome data : String) (cid pid : Nat)
      (email telefone : Option String) (itens : List ItemDict) (total : ℚ),
      find_clients db term = (.error (.typeError (unexpectedKwMsg "fetch_all")), db) ∧
      get_client_by_id db cid = (.error (.typeError (unexpectedKwMsg "fetch_one")), db) ∧
      add_client db nome email telefone =
        (.error (.typeError (unexpectedKwMsg "commit")), db) ∧
      update_client db cid nome email telefone =
        (.error (.typeError (unexpectedKwMsg "commit")), db) ∧
      delete_client db cid = (.error (.typeError (unexpectedKwMsg "fetch_one")), db) ∧
      get_all_clients_list db = (.error (.typeError (unexpectedKwMsg "fetch_all")), db) ∧
      find_pedidos db term = (.error (.typeError (unexpectedKwMsg "fetch_all")), db) ∧
      get_pedido_details db pid = (.error (.typeError (unexpectedKwMsg "fetch_one")), db) ∧
      salvar_pedido_transacional db cid data itens total =
        (.error (.typeError (unexpectedKwMsg "commit")), db) ∧
      editar_pedido_transacional db pid cid data itens total =
        (.error (.typeError (unexpectedKwMsg "commit")), db) ∧
      delete_pedido_transacional db pid =
        (.error (.typeError (unexpectedKwMsg "commit")), db) :=
  fun _ _ _ _ _ _ _ _ _ _ =>
    ⟨rfl, rfl, rfl, rfl, rfl, rfl, rfl, rfl, rfl, rfl, rfl⟩

/-- C1: every run of `salvar_pedido_transacional` fails at its very first
gateway call (so in particular the generated order id is never obtained and a
line-item insert can never be the failing step in any other way), the call
re-raises that original error after the swallowed `ROLLBACK` attempt, and the
database afterwards equals the database before: no order row and no line-item
row from the attempt exists, so no partial order is ever visible. -/
theorem salvar_pedido_transacional_atomic :
    ∀ (db : DB) (cliente_id : Nat) (data_pedido : String)
      (itens : List ItemDict) (total : ℚ),
      (salvar_pedido_transacional db cliente_id data_pedido itens total).1 =
        .error (.typeError (unexpectedKwMsg "commit")) ∧
      (salvar_pedido_transacional db cliente_id data_pedido itens total).2 = db ∧
      (salvar_pedido_transacional db cliente_id data_pedido itens total).2.pedidos =
        db.pedidos ∧
      (salvar_pedido_transacional db cliente_id data_pedido itens total).2.itens =
        db.itens :=
  fun _ _ _ _ _ => ⟨rfl, rfl, rfl, rfl⟩

/-- C4 (counter-evidence): on a database holding two customers, customer
search with the empty term does not return the customers ordered by name; it
raises `TypeError` at the first gateway call and reads nothing. -/
theorem find_clients_typeError_at_empty_term :
    find_clients dbClientesDemo "" =
      (.error (.typeError (unexpectedKwMsg "fetch_all")), dbClientesDemo) ∧
    dbClientesDemo.clientes.length = 2 :=
  ⟨rfl, rfl⟩

/-- C6 (counter-evidence): deleting the customer with id 1, who owns zero
orders, does not succeed and does not remove the row; the call raises
`TypeError` at the pre-check gateway call and the customer row survives. -/
theorem delete_client_typeError_with_zero_orders :
    delete_client dbDeleteDemo 1 =
      (.error (.typeError (unexpectedKwMsg "fetch_one")), dbDeleteDemo) ∧
    (delete_client dbDeleteDemo 1).2.clientes =
      [{ id := 1, nome := "Ana", email := some "ana@x.com", telefone := none }] ∧
    dbDeleteDemo.pedidos = [] :=
  ⟨rfl, rfl, rfl⟩

/-- C5: the gateway's connection discipline.  With an external handle the
disk state is untouched, the handle is neither committed nor closed, and on a
failing statement the error is returned unchanged with the handle exactly as
it was (its transaction state is left to the caller).  With an internally
opened connection the connection ends closed in all cases, and on a failing
statement the error is re-raised unchanged, the disk state is unchanged and
the connection was rolled back to the state it opened on. -/
theorem execute_query_connection_discipline :
    ∀ (q : Stmt) (f : Fetch) (db : DB) (c : Conn),
      ((execute_query q f (some c) db).2.1 = db ∧
       (execute_query q f (some c) db).2.2.committed = c.committed ∧
       (execute_query q f (some c) db).2.2.isOpen = c.isOpen ∧
       (∀ e, execStmt q c.current = .error e →
         (execute_query q f (some c) db).1 = .error e ∧
         (execute_query q f (some c) db).2.2 = c)) ∧
      ((execute_query q f none db).2.2.isOpen = false ∧
       (∀ e, execStmt q db = .error e →
         (execute_query q f none db).1 = .error e ∧
         (execute_query q f none db).2.1 = db ∧
         (execute_query q f none db).2.2.current = db)) := by
  intro q f db c
  constructor
  · rcases h : execStmt q c.current with e | out <;>
      simp [execute_query, h]
  · rcases h : execStmt q db with e | out <;>
      simp [execute_query, h]

/-- The failing statement used to witness the gateway discipline: inserting a
customer whose email already exists violates the UNIQUE constraint. -/
def wStmt : Stmt := .insertCliente "Bia" (some "ana@x.com") none

/-- An external handle opened on `dbDeleteDemo`. -/
def wConn : Conn := { committed := dbDeleteDemo, current := dbDeleteDemo }

theorem execute_query_connection_discipline_witness :
    execStmt wStmt wConn.current = .error .uniqueEmail ∧
    (execute_query wStmt .noFetch (some wConn) dbDeleteDemo).1 = .error .uniqueEmail ∧
    (execute_query wStmt .noFetch (some wConn) dbDeleteDemo).2.2 = wConn ∧
    (execute_query wStmt .noFetch none dbDeleteDemo).2.1 = dbDeleteDemo ∧
    (execute_query wStmt .noFetch none dbDeleteDemo).2.2.isOpen = false := by
  have hfail : execStmt wStmt wConn.current = .error .uniqueEmail := rfl
  have h := execute_query_connection_discipline wStmt .noFetch dbDeleteDemo wConn
  exact ⟨hfail, (h.1.2.2.2 _ hfail).1, (h.1.2.2.2 _ hfail).2,
    (h.2.2 _ hfail).2.1, h.2.1⟩

/-! ## Order search with filters (spec-modelled)

`main.App.load_pedidos_data` calls `models.get_filtered_pedidos_data(
search_term, date_start, date_end)`, but no function of that name exists in
the sources; only its caller is present.  It is therefore modelled from the
spec here. -/

/-- The `JOIN` of orders with their customers, with SQL join semantics: one
output pair per matching combination. -/
def joinPedidosClientes (db : DB) : List (Pedido × Cliente) :=
  db.pedidos.flatMap fun p =>
    (db.clientes.filter (fun c => c.id == p.cliente_id)).map (fun c => (p, c))

/-- The conjunction of the optional filters of the order search: an absent
(empty) filter is satisfied, a supplied one must hold.  Dates are ISO
`YYYY-MM-DD` strings, so SQL string comparison is the string order. -/
def pedidoMatches (term date_start date_end : String) (pc : Pedido × Cliente) : Bool :=
  (term == "" || (likeContains pc.2.nome term || likeOpt pc.2.email term)) &&
  (date_start == "" || decide (date_start ≤ pc.1.data)) &&
  (date_end == "" || decide (pc.1.data ≤ date_end))

/-- Modelled from the spec: `models.get_filtered_pedidos_data` is called from
`main.App.load_pedidos_data` but is missing from the sources.  Spec: "builds a
query joining orders to their customer, applying zero or more of: a name/email
substring filter, a date-lower-bound filter, a date-upper-bound filter;
conditions are ANDed; result ordered by date descending." -/
def get_filtered_pedidos_data (db : DB) (search_term date_start date_end : String) :
    List (Pedido × Cliente) :=
  List.insertionSort (fun a b => b.1.data ≤ a.1.data)
    ((joinPedidosClientes db).filter (pedidoMatches search_term date_start date_end))

/-- C3: the filtered order search returns exactly the order/customer join
rows that satisfy every supplied filter (name/email substring AND date lower
bound AND date upper bound; an empty filter argument is absent), and the
result is ordered by date descending. -/
theorem get_filtered_pedidos_data_spec :
    ∀ (db : DB) (term ds de : String) (p : Pedido) (c : Cliente),
      ((p, c) ∈ get_filtered_pedidos_data db term ds de ↔
        p ∈ db.pedidos ∧ c ∈ db.clientes ∧ c.id = p.cliente_id ∧
        (term ≠ "" → (likeContains c.nome term = true ∨ likeOpt c.email term = true)) ∧
        (ds ≠ "" → ds ≤ p.data) ∧
        (de ≠ "" → p.data ≤ de)) ∧
      List.Sorted (fun a b : Pedido × Cliente => b.1.data ≤ a.1.data)
        (get_filtered_pedidos_data db term ds de) := by
  intro db term ds de p c
  constructor
  · have hperm := List.perm_insertionSort
      (fun a b : Pedido × Cliente => b.1.data ≤ a.1.data)
      ((joinPedidosClientes db).filter (pedidoMatches term ds de))
    rw [get_filtered_pedidos_data, hperm.mem_iff, List.mem_filter]
    simp only [joinPedidosClientes, List.mem_flatMap, List.mem_map, List.mem_filter,
      pedidoMatches, Bool.and_eq_true, Bool.or_eq_true, beq_iff_eq,
      decide_eq_true_eq, Prod.mk.injEq]
    constructor
    · rintro ⟨⟨p1, hp1, c1, ⟨hc1, hcid⟩, hpq, hcq⟩, ⟨hterm, hds⟩, hde⟩
      subst hpq; subst hcq
      exact ⟨hp1, hc1, by simpa using hcid,
        fun hne => hterm.resolve_left hne,
        fun hne => (hds.resolve_left hne),
        fun hne => (hde.resolve_left hne)⟩
    · rintro ⟨hp, hc, hid, hterm, hds, hde⟩
      refine ⟨⟨p, hp, c, ⟨hc, by simpa using hid⟩, rfl, rfl⟩, ⟨?_, ?_⟩, ?_⟩
      · by_cases h : term = ""
        · exact Or.inl h
        · exact Or.inr (hterm h)
      · by_cases h : ds = ""
        · exact Or.inl h
        · exact Or.inr (hds h)
      · by_cases h : de = ""
        · exact Or.inl h
        · exact Or.inr (hde h)
  · haveI : IsTotal (Pedido × Cliente) (fun a b => b.1.data ≤ a.1.data) :=
      ⟨fun a b => le_total b.1.data a.1.data⟩
    haveI : IsTrans (Pedido × Cliente) (fun a b => b.1.data ≤ a.1.data) :=
      ⟨fun _ _ _ h1 h2 => le_trans h2 h1⟩
    exact List.sorted_insertionSort _ _

/-- A February order of customer 2, used to witness the filtered search. -/
def pedidoFev : Pedido :=
  { id := 2, cliente_id := 2, data := "2025-02-05", total := 20 }

/-- Customer 2. -/
def clienteBruno : Cliente :=
  { id := 2, nome := "Bruno", email := some "bruno@x.com", telefone := none }

/-- Two customers with one order each, in January and February 2025. -/
def dbPedidosDemo : DB :=
  { clientes := [{ id := 1, nome := "Ana", email := some "ana@x.com", telefone := none },
                 clienteBruno],
    pedidos := [{ id := 1, cliente_id := 1, data := "2025-01-10", total := 10 },
                pedidoFev],
    itens := [], seqCliente := 3, seqPedido := 3 }

theorem get_filtered_pedidos_data_spec_witness :
    (pedidoFev, clienteBruno) ∈
      get_filtered_pedidos_data dbPedidosDemo "" "2025-01-15" "" ∧
    List.Sorted (fun a b : Pedido × Cliente => b.1.data ≤ a.1.data)
      (get_filtered_pedidos_data dbPedidosDemo "" "2025-01-15" "") := by
  have h := get_filtered_pedidos_data_spec dbPedidosDemo "" "2025-01-15" ""
    pedidoFev clienteBruno
  refine ⟨h.1.mpr ⟨by decide, by decide, rfl,
    fun hne => absurd rfl hne, fun _ => ?_, fun hne => absurd rfl hne⟩, h.2⟩
  show ("2025-01-15" : String) ≤ "2025-02-05"
  rw [String.le_iff_toList_le]
  decide

/-! ## Dashboard statistics (spec-modelled)

`main.App.load_dashboard_data` calls `models.get_dashboard_stats()`, but no
function of that name exists in the sources; only its caller and the view
consuming the dictionary keys are present.  It is modelled from the spec. -/

/-- The dictionary `get_dashboard_stats` returns (keys as consumed by
`DashboardFrame.update_stats`). -/
structure DashboardStats where
  total_clientes : Nat
  pedidos_mes_atual : Nat
  receita_total_mes : ℚ
  ticket_medio_mes_atual : ℚ
deriving DecidableEq, Repr

/-- String prefix test (the leading-characters test the month check needs). -/
def strStarts (s pre : String) : Bool :=
  pre.data.isPrefixOf s.data

/-- The orders whose ISO date falls in the month given by the `YYYY-MM`
prefix. -/
def pedidosDoMes (db : DB) (ym : String) : List Pedido :=
  db.pedidos.filter (fun p => strStarts p.data ym)

/-- Modelled from the spec: `models.get_dashboard_stats` is called from
`main.App.load_dashboard_data` but is missing from the sources.  Spec:
"total customer count; count of orders whose date falls in the current
calendar month; sum of those orders' totals; average order value for the
current month (0 if no orders that month — never divide by zero)."  The
current month is passed in as its `YYYY-MM` prefix. -/
def get_dashboard_stats (db : DB) (ym : String) : DashboardStats :=
  let mes := pedidosDoMes db ym
  { total_clientes := db.clientes.length
    pedidos_mes_atual := mes.length
    receita_total_mes := (mes.map Pedido.total).sum
    ticket_medio_mes_atual :=
      if mes.length = 0 then 0
      else (mes.map Pedido.total).sum / (mes.length : ℚ) }

/-- C7: the dashboard average order value is 0 when the current month has
zero orders, and otherwise is the month's revenue divided by the month's
order count (stated multiplicatively: average times count equals revenue);
the counts and revenue are those of the month's orders. -/
theorem get_dashboard_stats_spec :
    ∀ (db : DB) (ym : String),
      (get_dashboard_stats db ym).total_clientes = db.clientes.length ∧
      (get_dashboard_stats db ym).pedidos_mes_atual = (pedidosDoMes db ym).length ∧
      (get_dashboard_stats db ym).receita_total_mes =
        ((pedidosDoMes db ym).map Pedido.total).sum ∧
      ((get_dashboard_stats db ym).pedidos_mes_atual = 0 →
        (get_dashboard_stats db ym).ticket_medio_mes_atual = 0) ∧
      ((get_dashboard_stats db ym).pedidos_mes_atual ≠ 0 →
        (get_dashboard_stats db ym).ticket_medio_mes_atual *
          ((get_dashboard_stats db ym).pedidos_mes_atual : ℚ) =
          (get_dashboard_stats db ym).receita_total_mes) := by
  intro db ym
  by_cases h : (pedidosDoMes db ym).length = 0
  · refine ⟨rfl, rfl, rfl, fun _ => ?_, fun hne => absurd h hne⟩
    simp [get_dashboard_stats, h]
  · refine ⟨rfl, rfl, rfl, fun h0 => absurd h0 h, fun _ => ?_⟩
    have hcast : ((pedidosDoMes db ym).length : ℚ) ≠ 0 := by
      exact_mod_cast h
    simp only [get_dashboard_stats, if_neg h]
    exact div_mul_cancel₀ _ hcast

/-- Two orders in January 2025, revenue 10 and 20. -/
def dbStatsDemo : DB :=
  { clientes := [{ id := 1, nome := "Ana", email := some "ana@x.com", telefone := none }],
    pedidos := [{ id := 1, cliente_id := 1, data := "2025-01-10", total := 10 },
                { id := 2, cliente_id := 1, data := "2025-01-20", total := 20 }],
    itens := [], seqCliente := 2, seqPedido := 3 }

theorem get_dashboard_stats_spec_witness :
    (get_dashboard_stats dbDeleteDemo "2025-01").ticket_medio_mes_atual = 0 ∧
    (get_dashboard_stats dbStatsDemo "2025-01").ticket_medio_mes_atual * 2 = 30 := by
  have h1 := (get_dashboard_stats_spec dbDeleteDemo "2025-01").2.2.2.1 (by decide)
  have h2 := (get_dashboard_stats_spec dbStatsDemo "2025-01").2.2.2.2 (by decide)
  refine ⟨h1, ?_⟩
  have hlen : (get_dashboard_stats dbStatsDemo "2025-01").pedidos_mes_atual = 2 := by
    decide
  have hr : (get_dashboard_stats dbStatsDemo "2025-01").receita_total_mes = 30 := by
    show ((pedidosDoMes dbStatsDemo "2025-01").map Pedido.total).sum = 30
    have hfil : pedidosDoMes dbStatsDemo "2025-01" = dbStatsDemo.pedidos := rfl
    rw [hfil]
    norm_num [dbStatsDemo]
  rw [hlen, hr] at h2
  simpa using h2

/-! ## Export helpers `src/export_utils.py`

The CSV writer and the PDF table are modelled as the lists of rows (lists of
cell strings) they emit.  Python float formatting `f"{x:.2f}"` is modelled as
rounding to integer cents and rendering the cents. -/

/-- The value `f"{q:.2f}"` displays, in integer cents: round to the nearest
cent (no input used below sits on a tie, where float formatting would round
half to even). -/
def roundCents (q : ℚ) : ℤ :=
  ⌊q * 100 + 1 / 2⌋

/-- Renders a number of cents the way `f"{x:.2f}"` prints the value. -/
def centsToString (c : ℤ) : String :=
  let n := c.natAbs
  (if c < 0 then "-" else "") ++ toString (n / 100) ++ "." ++
    (if n % 100 < 10 then "0" else "") ++ toString (n % 100)

/-- Model of Python `f"{q:.2f}"`. -/
def fmt2 (q : ℚ) : String :=
  centsToString (roundCents q)

/-- The exact subtotal of a line item, `quantidade * preco_unit`. -/
def subtotalQ (item : ItemDict) : ℚ :=
  (item.quantidade : ℚ) * item.preco_unit

/-- The dictionary `export_to_csv` and `export_to_pdf` receive as
`pedido_info` (keys `id`, `data`, `total`, `cliente_nome`, `email`,
`telefone`). -/
structure PedidoInfo where
  id : Nat
  data : String
  total : ℚ
  cliente_nome : String
  email : String
  telefone : String
deriving DecidableEq, Repr

/-- `export_utils.export_to_csv`: the rows the CSV writer emits, in order.
The item loop is modelled as the fold it is in the source.  Note the `Total:`
header field displays the stored `pedido_info['total']`; the CSV has no
computed total row. -/
def export_to_csv_rows (pedido_info : PedidoInfo) (itens_list : List ItemDict) :
    List (List String) :=
  let header : List (List String) :=
    [["DADOS DO PEDIDO"],
     ["ID Pedido:", toString pedido_info.id],
     ["Data:", pedido_info.data],
     ["Total:", "R$ " ++ fmt2 pedido_info.total],
     [],
     ["DADOS DO CLIENTE"],
     ["Nome:", pedido_info.cliente_nome],
     ["E-mail:", pedido_info.email],
     ["Telefone:", pedido_info.telefone],
     [],
     ["ITENS DO PEDIDO"],
     ["Produto", "Quantidade", "Preço Unitário (R$)", "Subtotal (R$)"]]
  itens_list.foldl (fun rows item =>
    rows ++ [[item.produto, toString item.quantidade, fmt2 item.preco_unit,
              fmt2 ((item.quantidade : ℚ) * item.preco_unit)]]) header

/-- `export_utils.export_to_pdf`: the table handed to the document library.
The item loop accumulates the rows and the running `total_pedido`, exactly as
the source does, and the final row displays that running exact sum formatted
to two decimals. -/
def export_to_pdf_table (pedido_info : PedidoInfo) (itens_list : List ItemDict) :
    List (List String) :=
  let _ := pedido_info
  let fin := itens_list.foldl (fun st item =>
    (st.1 ++ [[item.produto, toString item.quantidade, fmt2 item.preco_unit,
               fmt2 ((item.quantidade : ℚ) * item.preco_unit)]],
     st.2 + (item.quantidade : ℚ) * item.preco_unit))
    ([["Produto", "Qtd", "Preço Unit. (R$)", "Subtotal (R$)"]], (0 : ℚ))
  fin.1 ++ [["", "", "TOTAL:", "R$ " ++ fmt2 fin.2]]

/-- The item row both exporters emit for one line item. -/
def itemRow (item : ItemDict) : List String :=
  [item.produto, toString item.quantidade, fmt2 item.preco_unit, fmt2 (subtotalQ item)]

theorem csv_foldl_aux (itens : List ItemDict) :
    ∀ acc : List (List String),
      itens.foldl (fun rows item =>
        rows ++ [[item.produto, toString item.quantidade, fmt2 item.preco_unit,
                  fmt2 ((item.quantidade : ℚ) * item.preco_unit)]]) acc =
      acc ++ itens.map itemRow := by
  induction itens with
  | nil => intro acc; simp
  | cons x t ih =>
      intro acc
      simp only [List.foldl_cons, ih, List.map_cons]
      simp [itemRow, subtotalQ]

theorem pdf_foldl_aux (itens : List ItemDict) :
    ∀ (acc : List (List String)) (q : ℚ),
      itens.foldl (fun st item =>
        (st.1 ++ [[item.produto, toString item.quantidade, fmt2 item.preco_unit,
                   fmt2 ((item.quantidade : ℚ) * item.preco_unit)]],
         st.2 + (item.quantidade : ℚ) * item.preco_unit)) (acc, q) =
      (acc ++ itens.map itemRow, q + (itens.map subtotalQ).sum) := by
  induction itens with
  | nil => intro acc q; simp
  | cons x t ih =>
      intro acc q
      simp only [List.foldl_cons, ih, List.map_cons]
      simp [itemRow, subtotalQ, add_assoc]

/-- C8 (amended): both exporters emit, per line item, the row
`[produto, quantidade, unit price to two decimals, quantidade*preco_unit to
two decimals]`; the CSV `Total:` field displays the stored input total; and
the PDF total row displays the exact sum of the items' subtotals formatted to
two decimals (not the sum of the displayed, already-rounded subtotals). -/
theorem export_rows_formatting :
    ∀ (info : PedidoInfo) (itens : List ItemDict),
      export_to_csv_rows info itens =
        [["DADOS DO PEDIDO"],
         ["ID Pedido:", toString info.id],
         ["Data:", info.data],
         ["Total:", "R$ " ++ fmt2 info.total],
         [],
         ["DADOS DO CLIENTE"],
         ["Nome:", info.cliente_nome],
         ["E-mail:", info.email],
         ["Telefone:", info.telefone],
         [],
         ["ITENS DO PEDIDO"],
         ["Produto", "Quantidade", "Preço Unitário (R$)", "Subtotal (R$)"]] ++
          itens.map itemRow ∧
      export_to_pdf_table info itens =
        [["Produto", "Qtd", "Preço Unit. (R$)", "Subtotal (R$)"]] ++
          itens.map itemRow ++
          [["", "", "TOTAL:", "R$ " ++ fmt2 ((itens.map subtotalQ).sum)]] := by
  intro info itens
  constructor
  · simp only [export_to_csv_rows, csv_foldl_aux]
  · simp only [export_to_pdf_table, pdf_foldl_aux itens
      [["Produto", "Qtd", "Preço Unit. (R$)", "Subtotal (R$)"]] 0, zero_add,
      List.append_assoc]

/-- A line item whose exact subtotal is 0.004 currency units. -/
def itemMeioCentavo : ItemDict :=
  { produto := "Parafuso", quantidade := 1, preco_unit := 1 / 250 }

/-- Three copies of the 0.004 item. -/
def itensMeioCentavo : List ItemDict :=
  [itemMeioCentavo, itemMeioCentavo, itemMeioCentavo]

/-- An order header for the counterexample. -/
def infoDemo : PedidoInfo :=
  { id := 7, data := "2025-01-10", total := 3 / 250, cliente_nome := "Ana",
    email := "ana@x.com", telefone := "111" }

/-- C8 (counterexample): on three items of exact subtotal 0.004 each, every
displayed subtotal is `0.00`, yet the PDF total row displays `R$ 0.01`: the
total row's displayed figure (1 cent) is not the sum of the displayed
subtotals (0 cents). -/
theorem export_pdf_total_differs_from_displayed_sum :
    itensMeioCentavo.map (fun it => fmt2 (subtotalQ it)) = ["0.00", "0.00", "0.00"] ∧
    (export_to_pdf_table infoDemo itensMeioCentavo).getLast? =
      some ["", "", "TOTAL:", "R$ 0.01"] ∧
    roundCents ((itensMeioCentavo.map subtotalQ).sum) = 1 ∧
    (itensMeioCentavo.map (fun it => roundCents (subtotalQ it))).sum = 0 ∧
    (1 : ℤ) ≠ 0 := by
  have hq : subtotalQ itemMeioCentavo = (250 : ℚ)⁻¹ := by
    norm_num [subtotalQ, itemMeioCentavo]
  have hr0 : roundCents ((250 : ℚ)⁻¹) = 0 := by
    rw [roundCents, Int.floor_eq_zero_iff]
    constructor <;> norm_num
  have hsum : (itensMeioCentavo.map subtotalQ).sum = 3 / 250 := by
    simp [itensMeioCentavo, hq]
    norm_num
  have hr1 : roundCents (3 / 250 : ℚ) = 1 := by
    rw [roundCents]
    rw [show ((3 : ℚ) / 250 * 100 + 1 / 2) = 17 / 10 by norm_num]
    rw [Int.floor_eq_iff]
    constructor <;> norm_num
  have hfmt0 : fmt2 ((250 : ℚ)⁻¹) = "0.00" := by
    rw [fmt2, hr0]; rfl
  refine ⟨?_, ?_, ?_, ?_, by decide⟩
  · simp [itensMeioCentavo, hq, hfmt0]
  · have := pdf_foldl_aux itensMeioCentavo
      [["Produto", "Qtd", "Preço Unit. (R$)", "Subtotal (R$)"]] 0
    simp only [export_to_pdf_table, this, zero_add, hsum]
    rw [List.getLast?_concat]
    rw [show fmt2 (3 / 250 : ℚ) = "0.01" by rw [fmt2, hr1]; rfl]
    rfl
  · rw [hsum, hr1]
  · simp [itensMeioCentavo, hq, hr0]

/-! ## The action logger `src/app_logger.py`

The log file is its text content; `read_log` takes `none` when the file does
not exist.  `f.readlines()` splits the content into lines keeping each
newline terminator; `read_log` joins the reversed line list with the empty
separator; `clear_log` truncates the file and appends the single formatted
marker entry `"{asctime} - Histórico de logs limpo."` plus the newline the
logging handler writes. -/

/-- The newline character. -/
def newlineChar : Char := Char.ofNat 10

/-- Python `f.readlines()` on the character stream: split into lines, each
keeping its terminating newline; a last unterminated chunk is one line. -/
def readlinesAux : List Char → List Char → List (List Char)
  | [], acc => if acc.isEmpty then [] else [acc.reverse]
  | ch :: cs, acc =>
      if ch = newlineChar then (acc.reverse ++ [ch]) :: readlinesAux cs []
      else readlinesAux cs (ch :: acc)

/-- Python `f.readlines()` on a string. -/
def pyReadlines (s : String) : List String :=
  (readlinesAux s.data []).map (fun l => String.mk l)

/-- Python `"".join(l)`. -/
def strJoin (l : List String) : String :=
  String.mk (l.map String.data).flatten

/-- The string `read_log` returns when the log file does not exist. -/
def logNotFound : String := "Nenhum histórico de log encontrado."

/-- `app_logger.read_log()`: the argument is the file content, `none` when
the file does not exist. -/
def read_log : Option String → String
  | Option.none => logNotFound
  | Option.some content => strJoin ((pyReadlines content).reverse)

/-- The marker entry `clear_log` logs, as the handler formats it
(`"%(asctime)s - %(message)s"`). -/
def logClearedEntry (ts : String) : String :=
  ts ++ " - Histórico de logs limpo."

/-- `app_logger.clear_log()`: truncates the file (the old content is
discarded) and the subsequent `log_action` appends the one marker entry with
its newline. -/
def clear_log (ts : String) (_old : String) : String :=
  logClearedEntry ts ++ "\n"

theorem strData_append (s t : String) : (s ++ t).data = s.data ++ t.data := by
  cases s; cases t; rfl

theorem strMk_data (s : String) : String.mk s.data = s := by
  cases s; rfl

theorem data_append_newline (e : String) :
    (e ++ "\n").data = e.data ++ [newlineChar] := by
  rw [strData_append]; rfl

theorem readlinesAux_line (rest : List Char) :
    ∀ (e acc : List Char), newlineChar ∉ e →
      readlinesAux (e ++ newlineChar :: rest) acc =
        (acc.reverse ++ e ++ [newlineChar]) :: readlinesAux rest [] := by
  intro e
  induction e with
  | nil => intro acc _; simp [readlinesAux]
  | cons c e ih =>
      intro acc h
      have hc : ¬ c = newlineChar := fun hEq => h (by simp [hEq])
      have hstep : readlinesAux ((c :: e) ++ newlineChar :: rest) acc =
          readlinesAux (e ++ newlineChar :: rest) (c :: acc) := by
        simp [readlinesAux, hc]
      rw [hstep, ih (c :: acc) (fun hm => h (List.mem_cons_of_mem _ hm))]
      simp

theorem readlinesAux_join :
    ∀ (entries : List (List Char)), (∀ e ∈ entries, newlineChar ∉ e) →
      readlinesAux ((entries.map (fun e => e ++ [newlineChar])).flatten) [] =
        entries.map (fun e => e ++ [newlineChar]) := by
  intro entries
  induction entries with
  | nil => intro _; simp [readlinesAux]
  | cons e t ih =>
      intro h
      simp only [List.map_cons, List.flatten_cons]
      rw [show e ++ [newlineChar] ++ (t.map (fun x => x ++ [newlineChar])).flatten =
            e ++ newlineChar :: (t.map (fun x => x ++ [newlineChar])).flatten by simp]
      rw [readlinesAux_line _ e [] (h e (by simp))]
      rw [ih (fun x hx => h x (by simp [hx]))]
      simp

/-- C9: reading a log whose content is a list of newline-terminated entries
returns exactly those entries newest-first (the file's lines in reverse
order, concatenated), and clearing the log leaves exactly one line, the
timestamped cleared-marker entry. -/
theorem log_read_newest_first_and_clear_marker :
    ∀ (entries : List String) (ts old : String),
      (∀ e ∈ entries, newlineChar ∉ e.data) →
      newlineChar ∉ ts.data →
      read_log (some (strJoin (entries.map (fun e => e ++ "\n")))) =
        strJoin ((entries.reverse).map (fun e => e ++ "\n")) ∧
      pyReadlines (clear_log ts old) = [logClearedEntry ts ++ "\n"] := by
  intro entries ts old hents hts
  constructor
  · have hdata : (strJoin (entries.map (fun e => e ++ "\n"))).data =
        ((entries.map String.data).map (fun l => l ++ [newlineChar])).flatten := by
      show ((entries.map (fun e => e ++ "\n")).map String.data).flatten = _
      rw [List.map_map, List.map_map]
      exact congrArg List.flatten (List.map_congr_left (fun e _ => data_append_newline e))
    have hpy : pyReadlines (strJoin (entries.map (fun e => e ++ "\n"))) =
        entries.map (fun e => e ++ "\n") := by
      rw [pyReadlines, hdata,
        readlinesAux_join (entries.map String.data)
          (by intro l hl
              obtain ⟨e, he, rfl⟩ := List.mem_map.mp hl
              exact hents e he),
        List.map_map, List.map_map]
      apply List.map_congr_left
      intro e _
      show String.mk (e.data ++ [newlineChar]) = e ++ "\n"
      rw [← data_append_newline, strMk_data]
    show strJoin ((pyReadlines (strJoin (entries.map (fun e => e ++ "\n")))).reverse) = _
    rw [hpy, List.map_reverse]
  · have hnl : newlineChar ∉ (logClearedEntry ts).data := by
      rw [logClearedEntry, strData_append]
      simp only [List.mem_append]
      rintro (h | h)
      · exact hts h
      · exact absurd h (by decide)
    rw [pyReadlines]
    rw [show (clear_log ts old).data = (logClearedEntry ts).data ++
          newlineChar :: [] from data_append_newline _]
    rw [readlinesAux_line [] _ [] hnl]
    rw [show readlinesAux [] [] = [] from rfl]
    simp only [List.reverse_nil, List.nil_append, List.map_cons, List.map_nil]
    rw [show String.mk ((logClearedEntry ts).data ++ [newlineChar]) =
          logClearedEntry ts ++ "\n" by rw [← data_append_newline, strMk_data]]

theorem log_read_newest_first_and_clear_marker_witness :
    read_log (some (strJoin ((["10:00 - Cliente criado: Ana",
        "11:00 - Pedido excluído: ID 3"]).map (fun e => e ++ "\n")))) =
      strJoin ((["10:00 - Cliente criado: Ana",
        "11:00 - Pedido excluído: ID 3"].reverse).map (fun e => e ++ "\n")) ∧
    pyReadlines (clear_log "2025-01-03 12:00:00" "antigo") =
      [logClearedEntry "2025-01-03 12:00:00" ++ "\n"] :=
  log_read_newest_first_and_clear_marker
    ["10:00 - Cliente criado: Ana", "11:00 - Pedido excluído: ID 3"]
    "2025-01-03 12:00:00" "antigo" (by decide) (by decide)

/-- C10: when the log file does not exist, `read_log` returns the fixed
non-empty message rather than the empty string its docstring promises, and a
log file containing exactly that text reads back identically, so callers
cannot distinguish the two cases. -/
theorem read_log_absent_file_message :
    read_log none = "Nenhum histórico de log encontrado." ∧
    read_log none ≠ "" ∧
    read_log (some "Nenhum histórico de log encontrado.") = read_log none := by
  refine ⟨rfl, by decide, by rfl⟩

end ClientesPedidos
